import Mathlib

/-!
Verification of the field-extraction and configuration utilities of the
tikki repository (`tikki/utils.py`), via a shallow embedding into Lean.

Python's dynamically-typed values are modelled by the inductive `PyVal`
(restricted to the value kinds the utilities manipulate: `None`, integers,
strings and naive datetimes), Python dictionaries by insertion-ordered
association lists, and raised exceptions by an `Except PyErr` result.
-/

set_option autoImplicit false

/-- The runtime types the extractor dispatches on: `int`, `str`,
`datetime.datetime` and `NoneType`. -/
inductive PyType where
  | int
  | str
  | datetime
  | noneType
  deriving DecidableEq, Repr

/-- A naive (timezone-free) `datetime.datetime`, as produced by
`dateutil.parser.parse(value, ignoretz=True)`.  Only the date fields are
modelled; they suffice for every property below. -/
structure Datetime where
  year : Nat
  month : Nat
  day : Nat
  deriving DecidableEq, Repr

/-- A Python runtime value, restricted to the kinds handled by the
utilities: `None`, `int`, `str` and `datetime.datetime`. -/
inductive PyVal where
  | none
  | int (n : Int)
  | str (s : String)
  | datetime (d : Datetime)
  deriving DecidableEq, Repr

/-- Python's `type(value)` over the modelled value fragment. -/
def typeOf : PyVal → PyType
  | .none => .noneType
  | .int _ => .int
  | .str _ => .str
  | .datetime _ => .datetime

/-- Python's `isinstance(value, t)` over the modelled fragment (none of the
modelled types is a subclass of another, so it is exact type equality). -/
def isinstance (v : PyVal) (t : PyType) : Bool :=
  typeOf v = t

/-- Whether a value is a `str` (Python `isinstance(value, str)`). -/
def PyVal.isStr : PyVal → Bool
  | .str _ => true
  | _ => false

/-- Python's `str(value)` over the modelled fragment (used by werkzeug's
typed lookup when the declared type is `str`). -/
def pyStr : PyVal → String
  | .none => "None"
  | .int n => toString n
  | .str s => s
  | .datetime d =>
      toString d.year ++ "-" ++ toString d.month ++ "-" ++ toString d.day

/-- Python truthiness (`bool(value)`) over the modelled fragment: `None`,
`0` and `''` are falsy, everything else truthy. -/
def pyTruthy : PyVal → Bool
  | .none => false
  | .int n => n != 0
  | .str s => s ≠ ""
  | .datetime _ => true

/-- A raised Python exception.  `appException` is tikki's `AppException`
(declared in `tikki/exceptions.py`, outside the sources at hand; the spec
describes it as a message-carrying validation/unsupported-source error);
`parserError` is `dateutil.parser.ParserError` (a `ValueError` raised on an
unparseable date string); `valueError` and `typeError` are the built-in
exceptions raised by a failed `int(...)`/`datetime(...)` call. -/
inductive PyErr where
  | appException (msg : String)
  | parserError (msg : String)
  | valueError
  | typeError
  deriving DecidableEq, Repr

/-- A Python `dict` with string keys, modelled as an insertion-ordered
association list whose keys are unique (every dict below is built by
`dictSet`, which preserves uniqueness). -/
abbrev PyDict := List (String × PyVal)

/-- The key list of a dict, in insertion order. -/
def keysOf (d : PyDict) : List String := d.map Prod.fst

/-- `d.get(key)`: the value stored under the first occurrence of `key`. -/
def lookupFirst (d : PyDict) (k : String) : Option PyVal :=
  match d with
  | [] => Option.none
  | (k', v) :: rest => if k' = k then some v else lookupFirst rest k

/-- Python's `d[key] = v`: replace in place when the key exists, append
otherwise (Python 3.7+ dicts preserve insertion order). -/
def dictSet (d : PyDict) (k : String) (v : PyVal) : PyDict :=
  match d with
  | [] => [(k, v)]
  | (k', v') :: rest =>
      if k' = k then (k, v) :: rest else (k', v') :: dictSet rest k v

/-- Python's `d.update(other)`: `d[k] = v` for each pair of `other` in
order. -/
def dictUpdate (d : PyDict) (other : List (String × PyVal)) : PyDict :=
  match other with
  | [] => d
  | (k, v) :: rest => dictUpdate (dictSet d k v) rest

/-- Drop everything from the first `+` on (the timezone suffix of an ISO
datetime string, discarded because the source parses with
`ignoretz=True`). -/
def dropTzSuffix : List Char → List Char
  | [] => []
  | c :: rest => if c = '+' then [] else c :: dropTzSuffix rest

/-- Split a character list on `-`. -/
def splitDash : List Char → List (List Char)
  | [] => [[]]
  | c :: rest =>
      match splitDash rest with
      | [] => [[]]
      | g :: gs => if c = '-' then [] :: g :: gs else (c :: g) :: gs

/-- Read a non-empty all-digit character list as a natural number. -/
def digitsToNat : List Char → Option Nat
  | [] => Option.none
  | cs => go cs 0
where
  go : List Char → Nat → Option Nat
    | [], acc => some acc
    | c :: rest, acc =>
        if c.isDigit then go rest (acc * 10 + (c.toNat - '0'.toNat))
        else Option.none

/-- Modelled from the spec: `dateutil.parser.parse(value, ignoretz=True)`
(the `dateutil` library is an external dependency, not part of the
sources).  Per the spec it parses an ISO-ish date/time string with
timezone information discarded; it raises `ParserError` on input it cannot
parse.  Modelled here over the ISO subset `YYYY-MM-DD` with an optional
`+...` timezone suffix, which is discarded; `none` models the raised
`ParserError`. -/
def dateutilParse (s : String) : Option Datetime :=
  match splitDash (dropTzSuffix s.toList) with
  | [y, m, d] =>
      match digitsToNat y, digitsToNat m, digitsToNat d with
      | some yn, some mn, some dn =>
          if 1 ≤ mn ∧ mn ≤ 12 ∧ 1 ≤ dn ∧ dn ≤ 31 then
            some ⟨yn, mn, dn⟩
          else Option.none
      | _, _, _ => Option.none
  | _ => Option.none

/-- `tikki.utils.parse_value`: datetimes arrive as strings and are parsed
first (propagating dateutil's `ParserError` on failure); otherwise the
value passes through when it is an instance of the declared type and
collapses to `None` otherwise. -/
def parse_value (value : PyVal) (default_type : PyType) : Except PyErr PyVal :=
  match default_type, value with
  | .datetime, .str s =>
      match dateutilParse s with
      | some d => .ok (.datetime d)
      | Option.none => .error (.parserError ("Unknown string format: " ++ s))
  | _, _ => .ok (if isinstance value default_type then value else .none)

/-- Calling a Python type as a conversion function, `t(v)`, as werkzeug's
typed `MultiDict.get` does (the `werkzeug` library is an external
dependency; modelled from its documented behaviour): `int` parses integer
strings and raises `ValueError` on other strings, `TypeError` on `None`
and datetimes; `str` converts anything; calling `datetime` or `NoneType`
with one positional argument raises `TypeError`. -/
def pyTypeCall (t : PyType) (v : PyVal) : Except PyErr PyVal :=
  match t, v with
  | .int, .int n => .ok (.int n)
  | .int, .str s =>
      match digitsToNat s.toList with
      | some n => .ok (.int (Int.ofNat n))
      | Option.none => .error .valueError
  | .int, _ => .error .typeError
  | .str, w => .ok (.str (pyStr w))
  | .datetime, _ => .error .typeError
  | .noneType, _ => .error .typeError

/-- A source mapping as dispatched on by `get_anydict_value`: a werkzeug
`MultiDict` (checked first, since `MultiDict` is itself a `dict`
subclass), a plain `dict`, or a value of any other runtime type, carried
with its type name. -/
inductive Source where
  | multiDict (entries : List (String × PyVal))
  | dict (entries : List (String × PyVal))
  | other (typeName : String)

/-- Werkzeug's `MultiDict.get(key, default, type)` (modelled from its
documented behaviour): the first value stored under the key, converted by
calling the type on it; a raised `ValueError` falls back to the default,
any other exception propagates; a missing key yields the default. -/
def multiDictGet (entries : List (String × PyVal)) (key : String)
    (default_value : PyVal) (default_type : PyType) : Except PyErr PyVal :=
  match lookupFirst entries key with
  | Option.none => .ok default_value
  | some rv =>
      match pyTypeCall default_type rv with
      | .ok r => .ok r
      | .error .valueError => .ok default_value
      | .error e => .error e

/-- `tikki.utils.get_anydict_value`: typed lookup on a `MultiDict`, plain
lookup on a `dict` (both followed by `parse_value`), and an `AppException`
for a source of any other type. -/
def get_anydict_value (source_dict : Source) (key : String)
    (default_value : PyVal) (default_type : PyType) : Except PyErr PyVal :=
  match source_dict with
  | .multiDict entries =>
      match multiDictGet entries key default_value default_type with
      | .ok value => parse_value value default_type
      | .error e => .error e
  | .dict entries =>
      parse_value ((lookupFirst entries key).getD default_value) default_type
  | .other typeName =>
      .error (.appException ("Unsupported source_dict type: " ++ typeName))

/-- The `required` loop of `get_args`: look each field up with default
`None`, record the key in the missing list when the coerced value is
`None`, and store the value (possibly `None`) in the output dict. -/
def processRequired (received : Source) :
    List (String × PyType) → List String × PyDict →
    Except PyErr (List String × PyDict)
  | [], acc => .ok acc
  | (key, default_type) :: rest, (missing, ret) =>
      match get_anydict_value received key .none default_type with
      | .error e => .error e
      | .ok val =>
          processRequired received rest
            (if val = .none then missing ++ [key] else missing,
             dictSet ret key val)

/-- The `defaultable` loop of `get_args`: the declared type is the type of
the default value, and the lookup's result (whatever it is) is stored. -/
def processDefaultable (received : Source) :
    List (String × PyVal) → PyDict → Except PyErr PyDict
  | [], ret => .ok ret
  | (key, default_value) :: rest, ret =>
      match get_anydict_value received key default_value (typeOf default_value) with
      | .error e => .error e
      | .ok val => processDefaultable received rest (dictSet ret key val)

/-- The `optional` loop of `get_args`: look each field up with default
`None` and store the value only when it is not `None`. -/
def processOptional (received : Source) :
    List (String × PyType) → PyDict → Except PyErr PyDict
  | [], ret => .ok ret
  | (key, default_type) :: rest, ret =>
      match get_anydict_value received key .none default_type with
      | .error e => .error e
      | .ok val =>
          processOptional received rest
            (if val = .none then ret else dictSet ret key val)

/-- The error message built when required fields are missing:
`"Missing following arguments:"` followed by `' ' + arg` per missing
field, in order. -/
def missingMsg (missing : List String) : String :=
  missing.foldl (fun m arg => m ++ " " ++ arg) "Missing following arguments:"

/-- The message of the `AppException` raised when all four descriptor
groups are omitted. -/
def noGroupsMsg : String :=
  "One of the following is required: required, defaultable, optional or constant."

/-- `x if x else {}`: a Python-truthiness fallback to the empty dict, so
both an omitted (`None`) and an empty group become `{}`. -/
def orEmpty {α : Type} (g : Option (List α)) : List α :=
  match g with
  | Option.none => []
  | some l => l

/-- `tikki.utils.get_args`: raise when all four groups are omitted
(`is None`), then run the required, defaultable and optional loops over
the source, copy the constants over the result with `dict.update`, and
finally raise listing the missing required fields if there were any. -/
def get_args (received : Source)
    (required : Option (List (String × PyType)) := Option.none)
    (defaultable : Option (List (String × PyVal)) := Option.none)
    (optional : Option (List (String × PyType)) := Option.none)
    (constant : Option (List (String × PyVal)) := Option.none) :
    Except PyErr PyDict :=
  if required = Option.none ∧ defaultable = Option.none ∧
      optional = Option.none ∧ constant = Option.none then
    .error (.appException noGroupsMsg)
  else
    match processRequired received (orEmpty required) ([], []) with
      | .error e => .error e
      | .ok (missing, ret1) =>
          match processDefaultable received (orEmpty defaultable) ret1 with
          | .error e => .error e
          | .ok ret2 =>
              match processOptional received (orEmpty optional) ret2 with
              | .error e => .error e
              | .ok ret3 =>
                  let ret4 := dictUpdate ret3 (orEmpty constant)
                  if missing.length > 0 then
                    .error (.appException (missingMsg missing))
                  else
                    .ok ret4

/-- `os.environ.get(name, None)` over an environment modelled as a
string-to-string association list: the first binding of the name, if
any. -/
def envLookup (env : List (String × String)) (name : String) : Option String :=
  match env with
  | [] => Option.none
  | (n, v) :: rest => if n = name then some v else envLookup rest name

/-- `tikki.utils._add_config_from_env`, over an environment modelled as a
string-to-string association list and a Flask config modelled as a
`PyDict`.  Returns the `bool` result together with the updated config and
missing list.  Note the source's `elif default_value:` tests Python
truthiness, not `is not None`. -/
def add_config_from_env (env : List (String × String)) (config : PyDict)
    (config_key : String) (env_variable : String)
    (missing_list : Option (List String) := Option.none)
    (default_value : PyVal := .none) :
    Bool × PyDict × Option (List String) :=
  match envLookup env env_variable with
  | some v => (true, dictSet config config_key (.str v), missing_list)
  | Option.none =>
      if pyTruthy default_value then
        (true, dictSet config config_key default_value, missing_list)
      else
        match missing_list with
        | some l => (false, config, some (l ++ [env_variable]))
        | Option.none => (false, config, Option.none)

/-- An authenticated-user record as used by `create_jwt_identity`: only
`user.id` and `user.type_id` are read. -/
structure User where
  id : PyVal
  type_id : PyVal

/-- The current instant, `datetime.datetime.utcnow()`, modelled as whole
seconds since the epoch plus microseconds; `int(now.timestamp())`
truncates to `sec`. -/
structure Instant where
  sec : Nat
  micro : Nat

/-- `tikki.utils.create_jwt_identity`: the claims dict
`{'sub': str(user.id), 'rol': user.type_id, 'iat': int(now.timestamp()),
'exp': int((now + timedelta(days=1)).timestamp())}`.  Adding one day to a
datetime adds 86400 seconds and keeps the microseconds, so the truncated
expiry is exactly `now.sec + 86400`. -/
def create_jwt_identity (user : User) (now : Instant) : PyDict :=
  [("sub", .str (pyStr user.id)),
   ("rol", user.type_id),
   ("iat", .int (Int.ofNat now.sec)),
   ("exp", .int (Int.ofNat (now.sec + 86400)))]

/-- The required fields whose lookup-and-coercion yields the absent value
`None`, in iteration order — exactly the keys the `required` loop of
`get_args` appends to its missing list (when no lookup raises). -/
def requiredMissing (received : Source) : List (String × PyType) → List String
  | [] => []
  | (key, default_type) :: rest =>
      match get_anydict_value received key .none default_type with
      | .ok .none => key :: requiredMissing received rest
      | _ => requiredMissing received rest

/-- A key of the `optional` group whose source value coerced successfully:
the lookup returned a value other than the absent signal `None`.  These
are exactly the optional keys that the `optional` loop of `get_args`
writes into the output. -/
def OptKept (received : Source) (optional : List (String × PyType)) (a : String) : Prop :=
  ∃ t, (a, t) ∈ optional ∧
    ∃ v, get_anydict_value received a .none t = .ok v ∧ v ≠ .none

/-! ### Association-list dictionary lemmas -/

theorem mem_keysOf_dictSet (d : PyDict) (k : String) (v : PyVal) (a : String) :
    a ∈ keysOf (dictSet d k v) ↔ a = k ∨ a ∈ keysOf d := by
  induction d with
  | nil => simp [dictSet, keysOf]
  | cons p rest ih =>
      obtain ⟨k', v'⟩ := p
      by_cases hk : k' = k
      · subst hk
        simp [dictSet, keysOf]
      · simp only [dictSet, if_neg hk, keysOf, List.map_cons, List.mem_cons]
        rw [show (List.map Prod.fst (dictSet rest k v)) = keysOf (dictSet rest k v) from rfl,
          ih]
        simp only [keysOf]
        tauto

theorem lookupFirst_dictSet_self (d : PyDict) (k : String) (v : PyVal) :
    lookupFirst (dictSet d k v) k = some v := by
  induction d with
  | nil => simp [dictSet, lookupFirst]
  | cons p rest ih =>
      obtain ⟨k', v'⟩ := p
      by_cases hk : k' = k
      · subst hk
        simp [dictSet, lookupFirst]
      · simp [dictSet, if_neg hk, lookupFirst, hk, ih]

theorem lookupFirst_dictSet_other (d : PyDict) (k : String) (v : PyVal) (a : String)
    (hak : a ≠ k) : lookupFirst (dictSet d k v) a = lookupFirst d a := by
  induction d with
  | nil => simp [dictSet, lookupFirst, Ne.symm hak]
  | cons p rest ih =>
      obtain ⟨k', v'⟩ := p
      by_cases hk : k' = k
      · subst hk
        simp [dictSet, lookupFirst, Ne.symm hak]
      · simp [dictSet, if_neg hk, lookupFirst, ih]

theorem mem_keysOf_dictUpdate (c : List (String × PyVal)) (d : PyDict) (a : String) :
    a ∈ keysOf (dictUpdate d c) ↔ a ∈ keysOf d ∨ a ∈ c.map Prod.fst := by
  induction c generalizing d with
  | nil => simp [dictUpdate]
  | cons p rest ih =>
      obtain ⟨k, v⟩ := p
      simp only [dictUpdate, ih, mem_keysOf_dictSet, List.map_cons, List.mem_cons]
      tauto

theorem lookupFirst_dictUpdate_not_mem (c : List (String × PyVal)) (d : PyDict)
    (a : String) (ha : a ∉ c.map Prod.fst) :
    lookupFirst (dictUpdate d c) a = lookupFirst d a := by
  induction c generalizing d with
  | nil => simp [dictUpdate]
  | cons p rest ih =>
      obtain ⟨k, v⟩ := p
      simp only [List.map_cons, List.mem_cons] at ha
      push_neg at ha
      simp only [dictUpdate, ih _ ha.2, lookupFirst_dictSet_other d k v a ha.1]

theorem lookupFirst_dictUpdate_mem (c : List (String × PyVal)) (d : PyDict)
    (a : String) (hnd : (c.map Prod.fst).Nodup) (ha : a ∈ c.map Prod.fst) :
    lookupFirst (dictUpdate d c) a = lookupFirst c a := by
  induction c generalizing d with
  | nil => simp at ha
  | cons p rest ih =>
      obtain ⟨k, v⟩ := p
      simp only [List.map_cons, List.nodup_cons] at hnd
      simp only [List.map_cons, List.mem_cons] at ha
      rcases ha with ha | ha
      · subst ha
        simp only [dictUpdate]
        rw [lookupFirst_dictUpdate_not_mem rest (dictSet d a v) a hnd.1]
        simp [lookupFirst_dictSet_self, lookupFirst]
      · have hak : a ≠ k := fun h => hnd.1 (h ▸ ha)
        simp only [dictUpdate]
        rw [ih (dictSet d k v) hnd.2 ha]
        simp [lookupFirst, Ne.symm hak]

theorem dictUpdate_cons_of_not_mem (c : List (String × PyVal)) (d : PyDict)
    (k : String) (v : PyVal) (hk : k ∉ c.map Prod.fst) :
    dictUpdate ((k, v) :: d) c = (k, v) :: dictUpdate d c := by
  induction c generalizing d with
  | nil => simp [dictUpdate]
  | cons p rest ih =>
      obtain ⟨k', v'⟩ := p
      simp only [List.map_cons, List.mem_cons] at hk
      push_neg at hk
      have : dictSet ((k, v) :: d) k' v' = (k, v) :: dictSet d k' v' := by
        simp [dictSet, hk.1]
      simp only [dictUpdate, this, ih _ hk.2]

theorem dictUpdate_nil_of_nodup (c : List (String × PyVal))
    (hnd : (c.map Prod.fst).Nodup) : dictUpdate [] c = c := by
  induction c with
  | nil => rfl
  | cons p rest ih =>
      obtain ⟨k, v⟩ := p
      simp only [List.map_cons, List.nodup_cons] at hnd
      simp only [dictUpdate, dictSet]
      rw [dictUpdate_cons_of_not_mem rest [] k v hnd.1, ih hnd.2]

/-! ### Lemmas about the three extraction loops -/

theorem processRequired_keys (received : Source) (req : List (String × PyType)) :
    ∀ mis d mis' d', processRequired received req (mis, d) = .ok (mis', d') →
      ∀ a, (a ∈ keysOf d' ↔ a ∈ keysOf d ∨ a ∈ req.map Prod.fst) := by
  induction req with
  | nil =>
      intro mis d mis' d' h a
      simp only [processRequired, Except.ok.injEq, Prod.mk.injEq] at h
      rw [← h.2]
      simp
  | cons p rest ih =>
      obtain ⟨k, t⟩ := p
      intro mis d mis' d' h a
      simp only [processRequired] at h
      split at h
      · exact absurd h (by simp)
      · rw [ih _ _ _ _ h a, mem_keysOf_dictSet]
        simp only [List.map_cons, List.mem_cons]
        tauto

theorem processRequired_missing (received : Source) (req : List (String × PyType)) :
    ∀ mis d mis' d', processRequired received req (mis, d) = .ok (mis', d') →
      mis' = mis ++ requiredMissing received req := by
  induction req with
  | nil =>
      intro mis d mis' d' h
      simp only [processRequired, Except.ok.injEq, Prod.mk.injEq] at h
      simp [requiredMissing, ← h.1]
  | cons p rest ih =>
      obtain ⟨k, t⟩ := p
      intro mis d mis' d' h
      simp only [processRequired] at h
      split at h
      · exact absurd h (by simp)
      · rename_i val heq
        have hm := ih _ _ _ _ h
        simp only [requiredMissing, heq]
        by_cases hv : val = PyVal.none
        · subst hv
          simp only [if_pos rfl] at hm
          simp [hm]
        · rw [if_neg hv] at hm
          cases val with
          | none => exact absurd rfl hv
          | int n => simpa using hm
          | str s => simpa using hm
          | datetime dd => simpa using hm

theorem processDefaultable_keys (received : Source) (defl : List (String × PyVal)) :
    ∀ d d', processDefaultable received defl d = .ok d' →
      ∀ a, (a ∈ keysOf d' ↔ a ∈ keysOf d ∨ a ∈ defl.map Prod.fst) := by
  induction defl with
  | nil =>
      intro d d' h a
      simp only [processDefaultable, Except.ok.injEq] at h
      rw [← h]
      simp
  | cons p rest ih =>
      obtain ⟨k, dv⟩ := p
      intro d d' h a
      simp only [processDefaultable] at h
      split at h
      · exact absurd h (by simp)
      · rw [ih _ _ h a, mem_keysOf_dictSet]
        simp only [List.map_cons, List.mem_cons]
        tauto

theorem processOptional_keys (received : Source) (opt : List (String × PyType)) :
    ∀ d d', processOptional received opt d = .ok d' →
      ∀ a, (a ∈ keysOf d' ↔ a ∈ keysOf d ∨ OptKept received opt a) := by
  induction opt with
  | nil =>
      intro d d' h a
      simp only [processOptional, Except.ok.injEq] at h
      rw [← h]
      simp [OptKept]
  | cons p rest ih =>
      obtain ⟨k, t⟩ := p
      intro d d' h a
      simp only [processOptional] at h
      split at h
      · exact absurd h (by simp)
      · rename_i val heq
        rw [ih _ _ h a]
        have hkept : OptKept received ((k, t) :: rest) a ↔
            (a = k ∧ val ≠ PyVal.none) ∨ OptKept received rest a := by
          constructor
          · rintro ⟨t', ht', v, hv, hvne⟩
            rcases List.mem_cons.mp ht' with ht' | ht'
            · obtain ⟨hak, hat⟩ := Prod.mk.injEq .. ▸ ht'
              left
              refine ⟨hak, ?_⟩
              rw [hak, hat] at hv
              rw [heq] at hv
              obtain rfl := (Except.ok.injEq .. ▸ hv)
              exact hvne
            · exact Or.inr ⟨t', ht', v, hv, hvne⟩
          · rintro (⟨hak, hvne⟩ | ⟨t', ht', v, hv, hvne⟩)
            · exact ⟨t, by rw [hak]; exact List.mem_cons_self _ _, val,
                by rw [hak]; exact heq, hvne⟩
            · exact ⟨t', List.mem_cons_of_mem _ ht', v, hv, hvne⟩
        rw [hkept]
        by_cases hv : val = PyVal.none
        · subst hv
          simp only [if_pos rfl]
          tauto
        · rw [if_neg hv, mem_keysOf_dictSet]
          constructor
          · rintro ((rfl | ha) | hrest)
            · exact Or.inr (Or.inl ⟨rfl, hv⟩)
            · exact Or.inl ha
            · exact Or.inr (Or.inr hrest)
          · rintro (ha | (⟨rfl, _⟩ | hrest))
            · exact Or.inl (Or.inr ha)
            · exact Or.inl (Or.inl rfl)
            · exact Or.inr hrest

/-! ### Lemmas about coercion and lookup -/

theorem parse_value_self (v : PyVal) : parse_value v (typeOf v) = .ok v := by
  cases v <;> simp [parse_value, typeOf, isinstance]

theorem parse_value_absent (w : PyVal) (t : PyType)
    (hinst : isinstance w t = false) (hdt : t = .datetime → w.isStr = false) :
    parse_value w t = .ok .none := by
  cases t <;> cases w <;> simp_all [parse_value, isinstance, typeOf, PyVal.isStr]

theorem parse_value_ne_appException (v : PyVal) (t : PyType) (m : String) :
    parse_value v t ≠ .error (.appException m) := by
  unfold parse_value
  split
  · rename_i s
    cases hds : dateutilParse s <;> simp
  · simp

theorem pyTypeCall_ne_appException (t : PyType) (v : PyVal) (m : String) :
    pyTypeCall t v ≠ .error (.appException m) := by
  unfold pyTypeCall
  split
  · simp
  · rename_i s
    cases hds : digitsToNat s.toList <;> simp
  · simp
  · simp
  · simp
  · simp

theorem multiDictGet_ne_appException (entries : List (String × PyVal))
    (key : String) (dv : PyVal) (t : PyType) (m : String) :
    multiDictGet entries key dv t ≠ .error (.appException m) := by
  unfold multiDictGet
  cases hl : lookupFirst entries key with
  | none => simp
  | some rv =>
      cases hc : pyTypeCall t rv with
      | ok r => simp [hc]
      | error e =>
          cases e with
          | appException m' => exact absurd hc (pyTypeCall_ne_appException t rv m')
          | parserError m' => simp [hc]
          | valueError => simp [hc]
          | typeError => simp [hc]

/-! ### Congruence of the loops in the source's observable lookups -/

theorem processRequired_congr (r1 r2 : Source)
    (h : ∀ key dv t, get_anydict_value r1 key dv t = get_anydict_value r2 key dv t)
    (req : List (String × PyType)) :
    ∀ acc, processRequired r1 req acc = processRequired r2 req acc := by
  induction req with
  | nil => intro acc; rfl
  | cons p rest ih =>
      obtain ⟨k, t⟩ := p
      intro acc
      obtain ⟨mis, d⟩ := acc
      simp only [processRequired, h k PyVal.none t]
      cases hg : get_anydict_value r2 k PyVal.none t with
      | error e => rfl
      | ok val => exact ih _

theorem processDefaultable_congr (r1 r2 : Source)
    (h : ∀ key dv t, get_anydict_value r1 key dv t = get_anydict_value r2 key dv t)
    (defl : List (String × PyVal)) :
    ∀ d, processDefaultable r1 defl d = processDefaultable r2 defl d := by
  induction defl with
  | nil => intro d; rfl
  | cons p rest ih =>
      obtain ⟨k, dv⟩ := p
      intro d
      simp only [processDefaultable, h k dv (typeOf dv)]
      cases hg : get_anydict_value r2 k dv (typeOf dv) with
      | error e => rfl
      | ok val => exact ih _

theorem processOptional_congr (r1 r2 : Source)
    (h : ∀ key dv t, get_anydict_value r1 key dv t = get_anydict_value r2 key dv t)
    (opt : List (String × PyType)) :
    ∀ d, processOptional r1 opt d = processOptional r2 opt d := by
  induction opt with
  | nil => intro d; rfl
  | cons p rest ih =>
      obtain ⟨k, t⟩ := p
      intro d
      simp only [processOptional, h k PyVal.none t]
      cases hg : get_anydict_value r2 k PyVal.none t with
      | error e => rfl
      | ok val => exact ih _

/-! ### Claim theorems -/

/-- C1: whenever `get_args` succeeds, the returned mapping contains
exactly the union of all required keys, all defaultable keys, the
optional keys whose source value coerced successfully, and all constant
keys; the groups are merged in order required, defaultable, optional,
constant with later groups overwriting earlier ones, so a key present in
the constant group always carries its constant value in the output. -/
theorem C1_get_args_merge (received : Source)
    (required : Option (List (String × PyType)))
    (defaultable : Option (List (String × PyVal)))
    (optional : Option (List (String × PyType)))
    (constant : Option (List (String × PyVal)))
    (out : PyDict)
    (h : get_args received required defaultable optional constant = .ok out)
    (hnd : ((orEmpty constant).map Prod.fst).Nodup) :
    (∀ a, a ∈ keysOf out ↔
        a ∈ (orEmpty required).map Prod.fst ∨
        a ∈ (orEmpty defaultable).map Prod.fst ∨
        OptKept received (orEmpty optional) a ∨
        a ∈ (orEmpty constant).map Prod.fst) ∧
    (∀ a, a ∈ (orEmpty constant).map Prod.fst →
        lookupFirst out a = lookupFirst (orEmpty constant) a) := by
  unfold get_args at h
  split at h
  · exact absurd h (by simp)
  · split at h
    · exact absurd h (by simp)
    · rename_i missing ret1 hr
      split at h
      · exact absurd h (by simp)
      · rename_i ret2 hd
        split at h
        · exact absurd h (by simp)
        · rename_i ret3 ho
          split at h
          · exact absurd h (by simp)
          · have hout : out = dictUpdate ret3 (orEmpty constant) := by
              simpa using h.symm
            have k1 := processRequired_keys received (orEmpty required) [] [] missing ret1 hr
            have k2 := processDefaultable_keys received (orEmpty defaultable) ret1 ret2 hd
            have k3 := processOptional_keys received (orEmpty optional) ret2 ret3 ho
            constructor
            · intro a
              rw [hout, mem_keysOf_dictUpdate, k3 a, k2 a, k1 a]
              simp only [keysOf, List.map_nil, List.not_mem_nil, false_or]
              tauto
            · intro a ha
              rw [hout]
              exact lookupFirst_dictUpdate_mem _ _ _ hnd ha

/-- Witness for C1 at the repository's own test example: source
`{'a': 1, 'b': 'c'}` with all four groups supplied yields
`{'a': 2, 'c': 2, 'b': 'c'}`. -/
theorem C1_get_args_merge_witness :
    (get_args (Source.dict [("a", PyVal.int 1), ("b", PyVal.str "c")])
        (some [("a", PyType.int)])
        (some [("a", PyVal.int 3), ("c", PyVal.int 2)])
        (some [("a", PyType.int), ("b", PyType.str)])
        (some [("a", PyVal.int 2)])
      = .ok [("a", PyVal.int 2), ("c", PyVal.int 2), ("b", PyVal.str "c")]) ∧
    (((orEmpty (some [("a", PyVal.int 2)])).map Prod.fst).Nodup) ∧
    ((∀ a, a ∈ keysOf [("a", PyVal.int 2), ("c", PyVal.int 2), ("b", PyVal.str "c")] ↔
        a ∈ (orEmpty (some [("a", PyType.int)])).map Prod.fst ∨
        a ∈ (orEmpty (some [("a", PyVal.int 3), ("c", PyVal.int 2)])).map Prod.fst ∨
        OptKept (Source.dict [("a", PyVal.int 1), ("b", PyVal.str "c")])
          (orEmpty (some [("a", PyType.int), ("b", PyType.str)])) a ∨
        a ∈ (orEmpty (some [("a", PyVal.int 2)])).map Prod.fst) ∧
     (∀ a, a ∈ (orEmpty (some [("a", PyVal.int 2)])).map Prod.fst →
        lookupFirst [("a", PyVal.int 2), ("c", PyVal.int 2), ("b", PyVal.str "c")] a =
        lookupFirst (orEmpty (some [("a", PyVal.int 2)])) a)) :=
  ⟨rfl, by decide,
    C1_get_args_merge (Source.dict [("a", PyVal.int 1), ("b", PyVal.str "c")])
      (some [("a", PyType.int)])
      (some [("a", PyVal.int 3), ("c", PyVal.int 2)])
      (some [("a", PyType.int), ("b", PyType.str)])
      (some [("a", PyVal.int 2)])
      [("a", PyVal.int 2), ("c", PyVal.int 2), ("b", PyVal.str "c")]
      rfl (by decide)⟩

/-- C2 (amended): if the required loop completes without raising and
records a non-empty missing list — its entries being exactly the required
fields whose lookup-and-coercion yielded absent, in iteration order — and
the defaultable and optional loops also complete without raising, then
the whole call fails with the validation `AppException` whose message
enumerates every missing required field name, space-separated, in
iteration order, regardless of what the other groups contributed.  (The
original claim is falsified when a later lookup raises, e.g. on an
unparseable date string: that exception preempts the validation error.) -/
theorem C2_missing_required_error (received : Source)
    (req : List (String × PyType))
    (defaultable : Option (List (String × PyVal)))
    (optional : Option (List (String × PyType)))
    (constant : Option (List (String × PyVal)))
    (mis : List String) (d1 d2 d3 : PyDict)
    (hr : processRequired received req ([], []) = .ok (mis, d1))
    (hd : processDefaultable received (orEmpty defaultable) d1 = .ok d2)
    (ho : processOptional received (orEmpty optional) d2 = .ok d3)
    (hne : mis ≠ []) :
    get_args received (some req) defaultable optional constant =
      .error (.appException (missingMsg mis)) ∧
    mis = requiredMissing received req := by
  constructor
  · unfold get_args
    rw [if_neg (by simp)]
    rw [show orEmpty (some req) = req from rfl]
    simp only [hr, hd, ho]
    rw [if_pos (by simpa using List.length_pos.mpr hne)]
  · simpa using processRequired_missing received req [] [] mis d1 hr

/-- Witness for C2: source `{}` with `required={'x': int}` fails with
message `Missing following arguments: x`. -/
theorem C2_missing_required_error_witness :
    (processRequired (Source.dict []) [("x", PyType.int)] ([], []) =
      .ok (["x"], [("x", PyVal.none)])) ∧
    (processDefaultable (Source.dict []) (orEmpty Option.none) [("x", PyVal.none)] =
      .ok [("x", PyVal.none)]) ∧
    (processOptional (Source.dict []) (orEmpty Option.none) [("x", PyVal.none)] =
      .ok [("x", PyVal.none)]) ∧
    (["x"] ≠ ([] : List String)) ∧
    (get_args (Source.dict []) (some [("x", PyType.int)]) Option.none Option.none
        Option.none = .error (.appException (missingMsg ["x"])) ∧
      ["x"] = requiredMissing (Source.dict []) [("x", PyType.int)]) :=
  ⟨rfl, rfl, rfl, by decide,
    C2_missing_required_error (Source.dict []) [("x", PyType.int)]
      Option.none Option.none Option.none ["x"] [("x", PyVal.none)]
      [("x", PyVal.none)] [("x", PyVal.none)] rfl rfl rfl (by decide)⟩

/-- Counterexample to C2 as stated: with source `{'d': 'hello'}` and
`required={'y': int, 'd': datetime}`, the required field `y` yields
absent, yet the call fails with dateutil's `ParserError` raised while
coercing `d` — not with a validation error enumerating the missing
required fields. -/
theorem C2_counterexample :
    (get_anydict_value (Source.dict [("d", PyVal.str "hello")]) "y" PyVal.none
        PyType.int = .ok PyVal.none) ∧
    (get_args (Source.dict [("d", PyVal.str "hello")])
        (some [("y", PyType.int), ("d", PyType.datetime)]) =
      .error (.parserError "Unknown string format: hello")) ∧
    (get_args (Source.dict [("d", PyVal.str "hello")])
        (some [("y", PyType.int), ("d", PyType.datetime)]) ≠
      .error (.appException (missingMsg ["y"]))) := by
  refine ⟨rfl, rfl, ?_⟩
  rw [show get_args (Source.dict [("d", PyVal.str "hello")])
      (some [("y", PyType.int), ("d", PyType.datetime)]) =
      Except.error (PyErr.parserError "Unknown string format: hello") from rfl]
  simp

/-- C3 (amended): for a defaultable field looked up in a plain dict
source, a key missing from the source falls back to the declared default;
but a key present with a value that is not an instance of the default's
type (and is not a string parsed as a datetime) coerces to `None`, and
that `None` — not the default — is stored under the key, so the
defaultable group can contribute a null value. -/
theorem C3_defaultable_wrong_type (entries entries2 : List (String × PyVal))
    (k : String) (dv w : PyVal)
    (hw : lookupFirst entries k = some w)
    (hinst : isinstance w (typeOf dv) = false)
    (hdt : typeOf dv = .datetime → w.isStr = false)
    (h2 : lookupFirst entries2 k = Option.none) :
    get_args (Source.dict entries) Option.none (some [(k, dv)]) Option.none
        Option.none = .ok [(k, PyVal.none)] ∧
    get_args (Source.dict entries2) Option.none (some [(k, dv)]) Option.none
        Option.none = .ok [(k, dv)] := by
  constructor
  · unfold get_args
    rw [if_neg (by simp)]
    simp only [orEmpty, processRequired, processDefaultable, processOptional,
      get_anydict_value, hw, Option.getD_some,
      parse_value_absent w (typeOf dv) hinst hdt]
    rfl
  · unfold get_args
    rw [if_neg (by simp)]
    simp only [orEmpty, processRequired, processDefaultable, processOptional,
      get_anydict_value, h2, Option.getD_none, parse_value_self dv]
    rfl

/-- Witness for C3: source `{'a': 'x'}` with `defaultable={'a': 3}`
returns `{'a': None}` (not the default), while source `{}` returns
`{'a': 3}`. -/
theorem C3_defaultable_wrong_type_witness :
    (lookupFirst [("a", PyVal.str "x")] "a" = some (PyVal.str "x")) ∧
    (isinstance (PyVal.str "x") (typeOf (PyVal.int 3)) = false) ∧
    (typeOf (PyVal.int 3) = PyType.datetime → (PyVal.str "x").isStr = false) ∧
    (lookupFirst [] "a" = Option.none) ∧
    (get_args (Source.dict [("a", PyVal.str "x")]) Option.none
        (some [("a", PyVal.int 3)]) Option.none Option.none =
      .ok [("a", PyVal.none)] ∧
     get_args (Source.dict []) Option.none
        (some [("a", PyVal.int 3)]) Option.none Option.none =
      .ok [("a", PyVal.int 3)]) :=
  ⟨rfl, by decide, by decide, rfl,
    C3_defaultable_wrong_type [("a", PyVal.str "x")] [] "a" (PyVal.int 3)
      (PyVal.str "x") rfl (by decide) (by decide) rfl⟩

/-- Counterexample to C3 as stated: with source `{'a': 'x'}` (key present
with a wrong-type value) and `defaultable={'a': 3}`, the output maps `a`
to `None`, not to the declared default `3` — the defaultable group does
contribute a null value. -/
theorem C3_counterexample :
    get_args (Source.dict [("a", PyVal.str "x")]) Option.none
        (some [("a", PyVal.int 3)]) Option.none Option.none =
      .ok [("a", PyVal.none)] ∧
    lookupFirst [("a", PyVal.none)] "a" ≠ some (PyVal.int 3) := by
  exact ⟨rfl, by decide⟩

/-- C4 (amended): the call fails with the no-descriptor-groups
`AppException` exactly when all four group arguments are omitted
(Python `None`); a group that is supplied but empty counts as present —
the `is None` test passes it — and with every group empty the call
succeeds with the empty mapping. -/
theorem C4_no_groups (received : Source) :
    get_args received Option.none Option.none Option.none Option.none =
      .error (.appException noGroupsMsg) ∧
    get_args received (some []) Option.none Option.none Option.none =
      .ok [] := by
  constructor
  · unfold get_args
    rw [if_pos ⟨rfl, rfl, rfl, rfl⟩]
  · unfold get_args
    rw [if_neg (by simp)]
    rfl

/-- Counterexample to C4 as stated: with all four groups empty — one of
them explicitly supplied as the empty mapping — the call does not fail;
it returns the empty mapping. -/
theorem C4_counterexample :
    get_args (Source.dict []) (some []) Option.none Option.none Option.none =
      .ok ([] : PyDict) := rfl

/-- C5 (amended): coercion raises only when the declared type is
date/time and the raw value is a string the date parser rejects (the
`ParserError` propagates); a date/time-declared string that parses yields
the timezone-free datetime; otherwise a value of exactly the declared
type passes through unchanged, and any other value yields the uniform
absent signal `None` rather than an error. -/
theorem C5_parse_value_total (value : PyVal) (default_type : PyType) :
    (∀ e, parse_value value default_type = .error e →
      ∃ s, value = .str s ∧ default_type = .datetime ∧
        dateutilParse s = Option.none ∧
        e = .parserError ("Unknown string format: " ++ s)) ∧
    (∀ s d, value = .str s → default_type = .datetime →
      dateutilParse s = some d →
      parse_value value default_type = .ok (.datetime d)) ∧
    (isinstance value default_type = true →
      (default_type = .datetime → value.isStr = false) →
      parse_value value default_type = .ok value) ∧
    (isinstance value default_type = false →
      (default_type = .datetime → value.isStr = false) →
      parse_value value default_type = .ok .none) := by
  refine ⟨?_, ?_, ?_, ?_⟩
  · intro e he
    unfold parse_value at he
    split at he
    · rename_i s
      cases hds : dateutilParse s with
      | some d => rw [hds] at he; exact absurd he (by simp)
      | none =>
          rw [hds] at he
          exact ⟨s, rfl, rfl, hds, by simpa using he.symm⟩
    · exact absurd he (by simp)
  · rintro s d rfl rfl hds
    simp only [parse_value, hds]
  · intro hinst hdt
    have := parse_value_absent value default_type
    unfold parse_value
    split
    · rename_i s
      exact absurd (hdt rfl) (by simp [PyVal.isStr])
    · rw [hinst]
      simp
  · intro hinst hdt
    exact parse_value_absent value default_type hinst hdt

/-- Witness for C5 at concrete inputs: the failing date string `hello`,
the parsing date string `2020-01-02`, an `int` passed through, and a
wrong-type string collapsing to `None`. -/
theorem C5_parse_value_total_witness :
    (∃ s, PyVal.str "hello" = PyVal.str s ∧ PyType.datetime = PyType.datetime ∧
      dateutilParse s = Option.none ∧
      PyErr.parserError ("Unknown string format: hello") =
        .parserError ("Unknown string format: " ++ s)) ∧
    parse_value (.str "2020-01-02") .datetime =
      .ok (.datetime ⟨2020, 1, 2⟩) ∧
    parse_value (.int 5) .int = .ok (.int 5) ∧
    parse_value (.str "x") .int = .ok .none :=
  ⟨(C5_parse_value_total (.str "hello") .datetime).1
      (.parserError ("Unknown string format: hello")) rfl,
   (C5_parse_value_total (.str "2020-01-02") .datetime).2.1
      "2020-01-02" ⟨2020, 1, 2⟩ rfl rfl rfl,
   (C5_parse_value_total (.int 5) .int).2.2.1 (by decide) (by decide),
   (C5_parse_value_total (.str "x") .int).2.2.2 (by decide) (by decide)⟩

/-- Counterexample to C5 as stated: coercing the string `hello` to a
date/time raises dateutil's `ParserError` instead of returning the
absent signal — `parse_value` is not raise-free. -/
theorem C5_counterexample :
    (PyVal.str "hello").isStr = true ∧
    parse_value (.str "hello") .datetime =
      .error (.parserError "Unknown string format: hello") := ⟨rfl, rfl⟩

/-- C6: lookup supports exactly the two source kinds of the dispatch — a
plain dict and a werkzeug MultiDict, neither of which can produce the
unsupported-source `AppException` — while a source of any other runtime
type makes every (hence the first) lookup fail with the generic
unsupported-source-type error. -/
theorem C6_source_kinds (entries : List (String × PyVal)) (key : String)
    (dv : PyVal) (t : PyType) (m tn : String) :
    get_anydict_value (.dict entries) key dv t ≠ .error (.appException m) ∧
    get_anydict_value (.multiDict entries) key dv t ≠ .error (.appException m) ∧
    get_anydict_value (.other tn) key dv t =
      .error (.appException ("Unsupported source_dict type: " ++ tn)) := by
  refine ⟨?_, ?_, rfl⟩
  · exact parse_value_ne_appException _ t m
  · show (match multiDictGet entries key dv t with
        | Except.ok value => parse_value value t
        | Except.error e => Except.error e) ≠ Except.error (PyErr.appException m)
    cases hm : multiDictGet entries key dv t with
    | ok v => exact parse_value_ne_appException v t m
    | error e =>
        cases e with
        | appException m' =>
            exact absurd hm (multiDictGet_ne_appException entries key dv t m')
        | parserError m' => simp [hm]
        | valueError => simp [hm]
        | typeError => simp [hm]

/-- C7: `get_args` is a deterministic function of its inputs — the
embedding is state-free because the source never writes to `received` or
the descriptor groups (only to the fresh local `ret_dict`) — and its
result depends only on the observable lookup behaviour of the source:
two sources indistinguishable under `get_anydict_value` give identical
outputs or identical failures for identical descriptor groups. -/
theorem C7_deterministic (received received2 : Source)
    (h : ∀ key dv t,
      get_anydict_value received key dv t = get_anydict_value received2 key dv t)
    (required : Option (List (String × PyType)))
    (defaultable : Option (List (String × PyVal)))
    (optional : Option (List (String × PyType)))
    (constant : Option (List (String × PyVal))) :
    get_args received required defaultable optional constant =
      get_args received2 required defaultable optional constant := by
  unfold get_args
  by_cases hc : required = Option.none ∧ defaultable = Option.none ∧
      optional = Option.none ∧ constant = Option.none
  · rw [if_pos hc, if_pos hc]
  · rw [if_neg hc, if_neg hc,
      processRequired_congr received received2 h (orEmpty required) ([], [])]
    simp only [processDefaultable_congr received received2 h (orEmpty defaultable),
      processOptional_congr received received2 h (orEmpty optional)]

/-- Witness for C7: two identical calls on the same source yield the same
result. -/
theorem C7_deterministic_witness :
    (∀ key dv t,
      get_anydict_value (Source.dict [("a", PyVal.int 1)]) key dv t =
      get_anydict_value (Source.dict [("a", PyVal.int 1)]) key dv t) ∧
    get_args (Source.dict [("a", PyVal.int 1)]) (some [("a", PyType.int)])
        Option.none Option.none Option.none =
      get_args (Source.dict [("a", PyVal.int 1)]) (some [("a", PyType.int)])
        Option.none Option.none Option.none :=
  ⟨fun _ _ _ => rfl,
   C7_deterministic (Source.dict [("a", PyVal.int 1)])
     (Source.dict [("a", PyVal.int 1)]) (fun _ _ _ => rfl)
     (some [("a", PyType.int)]) Option.none Option.none Option.none⟩

/-- C8 (amended): for each environment lookup of the configuration
loader — if the environment variable is defined its value is stored under
the config key and the call reports success; if it is undefined and the
supplied default is truthy, the default is stored and the call reports
success; but if it is undefined and the default is `None` *or any falsy
value* (the source tests `elif default_value:`, Python truthiness), the
variable's name is appended to the supplied missing-settings list (when
one was supplied) and the call reports failure. -/
theorem C8_env_config (env : List (String × String)) (config : PyDict)
    (ck ev : String) (ml : Option (List String)) (dv : PyVal) :
    (∀ v, envLookup env ev = some v →
      add_config_from_env env config ck ev ml dv =
        (true, dictSet config ck (.str v), ml)) ∧
    (envLookup env ev = Option.none → pyTruthy dv = true →
      add_config_from_env env config ck ev ml dv =
        (true, dictSet config ck dv, ml)) ∧
    (∀ l, envLookup env ev = Option.none → pyTruthy dv = false → ml = some l →
      add_config_from_env env config ck ev ml dv =
        (false, config, some (l ++ [ev]))) ∧
    (envLookup env ev = Option.none → pyTruthy dv = false → ml = Option.none →
      add_config_from_env env config ck ev ml dv =
        (false, config, Option.none)) := by
  refine ⟨?_, ?_, ?_, ?_⟩ <;> unfold add_config_from_env
  · intro v hv
    rw [hv]
  · intro hv ht
    rw [hv]
    simp [ht]
  · intro l hv ht hm
    rw [hv, hm]
    simp [ht]
  · intro hv ht hm
    rw [hv, hm]
    simp [ht]

/-- Witness for C8: a defined variable is stored; an undefined variable
with the falsy default `''` is recorded as missing. -/
theorem C8_env_config_witness :
    (envLookup [("V", "x")] "V" = some "x") ∧
    (envLookup [] "V" = Option.none) ∧
    (pyTruthy (PyVal.str "") = false) ∧
    (add_config_from_env [("V", "x")] [] "K" "V" (some []) PyVal.none =
      (true, dictSet [] "K" (.str "x"), some [])) ∧
    (add_config_from_env [] [] "K" "V" (some []) (.str "") =
      (false, [], some ([] ++ ["V"]))) :=
  ⟨rfl, rfl, rfl,
   (C8_env_config [("V", "x")] [] "K" "V" (some []) PyVal.none).1 "x" rfl,
   (C8_env_config [] [] "K" "V" (some []) (.str "")).2.2.1 [] rfl rfl rfl⟩

/-- Counterexample to C8 as stated: the environment variable `V` is
undefined and a default value *was* supplied (the empty string, which is
not `None`), yet the loader stores nothing, records `V` as missing and
reports failure — because the source tests the default's truthiness, not
whether one was supplied. -/
theorem C8_counterexample :
    envLookup [] "V" = Option.none ∧
    PyVal.str "" ≠ PyVal.none ∧
    add_config_from_env [] [] "K" "V" (some []) (.str "") =
      (false, [], some ["V"]) :=
  ⟨rfl, by decide, rfl⟩

/-- C9: for every authenticated-user record the issued claims mapping
contains exactly the subject (`sub`, the user's id as a string), the role
(`rol`, the user's type id), an issued-at timestamp (`iat`) and an expiry
(`exp`) exactly 86400 seconds — one day — after the issued-at value. -/
theorem C9_jwt_identity (user : User) (now : Instant) :
    keysOf (create_jwt_identity user now) = ["sub", "rol", "iat", "exp"] ∧
    lookupFirst (create_jwt_identity user now) "sub" =
      some (.str (pyStr user.id)) ∧
    lookupFirst (create_jwt_identity user now) "rol" = some user.type_id ∧
    (∃ iat : Int, lookupFirst (create_jwt_identity user now) "iat" =
        some (.int iat) ∧
      lookupFirst (create_jwt_identity user now) "exp" =
        some (.int (iat + 86400))) := by
  refine ⟨rfl, rfl, rfl, Int.ofNat now.sec, rfl, ?_⟩
  show some (PyVal.int (Int.ofNat (now.sec + 86400))) =
    some (PyVal.int (Int.ofNat now.sec + 86400))
  norm_cast

/-- C10: a call that supplies only the constant group never observes the
source — for every source, of any runtime type whatsoever, including an
unsupported one — and succeeds, returning exactly the constant group. -/
theorem C10_constant_only (src : Source) (c : List (String × PyVal))
    (hnd : (c.map Prod.fst).Nodup) (_hne : c ≠ []) :
    get_args src Option.none Option.none Option.none (some c) = .ok c := by
  unfold get_args
  rw [if_neg (by simp)]
  show (Except.ok (dictUpdate [] c) : Except PyErr PyDict) = .ok c
  rw [dictUpdate_nil_of_nodup c hnd]

/-- Witness for C10: even against a source of an unsupported runtime type
(a Python `list`), a constant-only call succeeds with the constant
group. -/
theorem C10_constant_only_witness :
    ((([("a", PyVal.int 2)] : List (String × PyVal)).map Prod.fst).Nodup) ∧
    (([("a", PyVal.int 2)] : List (String × PyVal)) ≠ []) ∧
    get_args (Source.other "list") Option.none Option.none Option.none
      (some [("a", PyVal.int 2)]) = .ok [("a", PyVal.int 2)] :=
  ⟨by decide, by decide,
   C10_constant_only (Source.other "list") [("a", PyVal.int 2)]
     (by decide) (by decide)⟩
